import Mathlib

/-!
Verification development for the vnpy trader UI widgets
(src/vnpy/trader/ui/widget.py and src/vnpy/trader/ui/assistant_widget.py).

The Python code is shallowly embedded: each cell class's set_content method
becomes a pure Lean function on a Cell record, BaseMonitor's table state
becomes an explicit MonitorState threaded through process_event /
insert_new_row / update_old_row / save_csv, and the order-submission
handlers become functions from the entered texts to an explicit outcome.
-/

namespace Vnpy

/-! ## Colors (widget.py lines 41-45) -/

/-- Foreground colors constructed at the top of widget.py. -/
inductive QColor where
  | red
  | green
  | bidPink
  | askGreen
  | black
deriving DecidableEq, Repr

/-- COLOR_LONG = QtGui.QColor("red") -/
def COLOR_LONG : QColor := QColor.red

/-- COLOR_SHORT = QtGui.QColor("green") -/
def COLOR_SHORT : QColor := QColor.green

/-- COLOR_BID = QtGui.QColor(255, 174, 201) -/
def COLOR_BID : QColor := QColor.bidPink

/-- COLOR_ASK = QtGui.QColor(160, 255, 160) -/
def COLOR_ASK : QColor := QColor.askGreen

/-! ## Cells

A QTableWidgetItem is modelled by its displayed text and its foreground
color (`none` is the widget's default foreground).  The `_data` payload
of BaseCell is not modelled: no verified claim depends on it. -/

/-- Display state of one table cell. -/
structure Cell where
  text : String
  color : Option QColor
deriving DecidableEq, Repr

/-- Fresh QTableWidgetItem before any set_content call: empty text,
default foreground. -/
def Cell.init : Cell := { text := "", color := none }

/-- BaseCell.set_content (widget.py lines 64-71): stores str(content) as the
text.  The Python argument `content` is only ever consumed through
`str(content)`, so the embedding takes that rendered string directly. -/
def baseCell_set_content (cell : Cell) (contentStr : String) : Cell :=
  { cell with text := contentStr }

/-- BaseCell constructor: a fresh item whose content has been set. -/
def baseCell_new (contentStr : String) : Cell :=
  baseCell_set_content Cell.init contentStr

/-- BaseCell.lt_by_text (widget.py lines 79-84, the dunder lt used by Qt
sorting): compares the two cells' stored text strings with Python's
string less-than, which is lexicographic on code points. -/
def baseCell_lt (a b : Cell) : Bool :=
  decide (a.text < b.text)

/-! ## PnlCell (widget.py lines 149-168) -/

/-- Python str.startswith(pre): the prefix test on the strings' character
sequences. -/
def pyStartswith (s pre : String) : Bool :=
  pre.data.isPrefixOf s.data

/-- PnlCell.set_content: text is str(content) via BaseCell, then the
foreground is green (COLOR_SHORT) when str(content) starts with a minus
sign and red (COLOR_LONG) otherwise. -/
def pnlCell_set_content (cell : Cell) (contentStr : String) : Cell :=
  let cell := baseCell_set_content cell contentStr
  if pyStartswith contentStr "-" then
    { cell with color := some COLOR_SHORT }
  else
    { cell with color := some COLOR_LONG }

/-! ## Direction and DirectionCell (widget.py lines 87-122)

The Direction enum lives in vnpy/trader/constant.py, which is not part of
the provided file set.  Modelled from the spec: the spec's direction role
speaks of values denoting long/buy and others, and widget.py line 1038
handles a direction that is neither LONG nor SHORT under the comment
"Net position mode", so the enum is modelled with the three members
LONG, SHORT, NET and their display labels. -/

/-- Direction enum, modelled from the spec (see section comment). -/
inductive Direction where
  | long
  | short
  | net
deriving DecidableEq, Repr

/-- Display label of a Direction member (the Python enum member's value). -/
def Direction.label : Direction → String
  | .long => "多"
  | .short => "空"
  | .net => "净"

/-- EnumCell.set_content (widget.py lines 96-101) at Direction type: when
content is truthy (a Python enum member is truthy; only None is falsy
here) the text becomes content.value, otherwise nothing changes. -/
def enumCell_set_content (cell : Cell) (content : Option Direction) : Cell :=
  match content with
  | some d => baseCell_set_content cell d.label
  | none => cell

/-- DirectionCell.set_content (widget.py lines 113-122): sets the text via
EnumCell, then unconditionally sets the foreground: COLOR_SHORT exactly
when the content is Direction.SHORT, COLOR_LONG in every other case
(including NET and None). -/
def directionCell_set_content (cell : Cell) (content : Option Direction) : Cell :=
  let cell := enumCell_set_content cell content
  if content = some Direction.short then
    { cell with color := some COLOR_SHORT }
  else
    { cell with color := some COLOR_LONG }

/-! ## TimeCell (widget.py lines 171-197) -/

/-- A datetime value after conversion to the viewer's local zone
(content.astimezone(local_tz) preserves the microsecond field and yields
these wall-clock components). -/
structure LocalTime where
  hour : Nat
  minute : Nat
  second : Nat
  microsecond : Nat
deriving DecidableEq, Repr

/-- Two-digit zero-padded decimal rendering used by strftime fields. -/
def pad2 (n : Nat) : String :=
  if n < 10 then "0" ++ toString n else toString n

/-- strftime("%H:%M:%S") on the local wall-clock components. -/
def strftimeHMS (t : LocalTime) : String :=
  pad2 t.hour ++ ":" ++ pad2 t.minute ++ ":" ++ pad2 t.second

/-- TimeCell.set_content: returns unchanged on None; otherwise renders
strftime("%H:%M:%S"), computes millisecond = microsecond / 1000
(int truncation), and appends "." ++ str(millisecond) when that value is
nonzero (Python truthiness) and ".000" when it is zero.  Note that the
nonzero branch uses plain str(int), with no zero padding. -/
def timeCell_set_content (cell : Cell) (content : Option LocalTime) : Cell :=
  match content with
  | none => cell
  | some t =>
    let timestamp := strftimeHMS t
    let millisecond := t.microsecond / 1000
    let timestamp :=
      if millisecond ≠ 0 then timestamp ++ "." ++ toString millisecond
      else timestamp ++ ".000"
    { cell with text := timestamp }

/-! ## BaseMonitor (widget.py lines 229-404)

The monitor's table is a list of rows in display order (head = row
index 0).  Python's cell registry self.cells maps a row key to a dict of
the row's live cell objects; since those dict values alias cells stored
in the table, the registry is embedded as a map from key to a stable row
identifier, and which headers' cells the registry entry retains is
recovered from the header configuration (exactly those with
"update": True, per insert_new_row lines 333-334).

The sorting suspend/resume in process_event (lines 299-300 and 316-317)
only permutes display order through Qt's sort indicator; it is not
modelled, and every verified property below is invariant under row
permutation or concerns monitors with sorting disabled. -/

/-- Configuration of one column: the headers dict entry
{"display": ..., "cell": ..., "update": ...} for field `name`, with the
cell class's constructor and set_content specialised to the record type
(`make d` embeds `cell_class(getattr(d, name), d)` and `set c d` embeds
`c.set_content(getattr(d, name), d)`). -/
structure HeaderSpec (Data : Type) where
  name : String
  display : String
  update : Bool
  make : Data → Cell
  set : Cell → Data → Cell

/-- Class-level configuration of a BaseMonitor subclass: data_key is
`none` for the Python empty string (falsy) and otherwise carries the
key extraction `data.__getattribute__(self.data_key)`. -/
structure MonitorConfig (Data : Type) where
  data_key : Option (Data → String)
  headers : List (HeaderSpec Data)

/-- One table row: a stable identity (standing for the Python cell
objects' identity, which survives reordering), the cells in column
order tagged with their field names, and Qt's hidden flag. -/
structure Row where
  id : Nat
  cells : List (String × Cell)
  hidden : Bool
deriving DecidableEq, Repr

/-- Full monitor state: rows in display order, the self.cells registry
as key to row-identity bindings, and the next fresh row identity. -/
structure MonitorState where
  rows : List Row
  registry : List (String × Nat)
  nextId : Nat
deriving DecidableEq, Repr

/-- Monitor state right after BaseMonitor.__init__: empty table, empty
registry. -/
def MonitorState.init : MonitorState :=
  { rows := [], registry := [], nextId := 0 }

/-- Lookup in the registry association list (Python dict access). -/
def regFind (reg : List (String × Nat)) (k : String) : Option Nat :=
  match reg.find? (fun p => p.1 = k) with
  | some p => some p.2
  | none => none

/-- Header configuration entry for a field name (Python headers dict
lookup; names are unique in every monitor's headers dict). -/
def headerFor {Data : Type} (cfg : MonitorConfig Data) (n : String) :
    Option (HeaderSpec Data) :=
  cfg.headers.find? (fun h => h.name = n)

/-- True when the field is configured and marked live-updated. -/
def isLiveHeader {Data : Type} (cfg : MonitorConfig Data) (n : String) : Bool :=
  match headerFor cfg n with
  | some h => h.update
  | none => false

/-- BaseMonitor.insert_new_row (widget.py lines 319-338): insertRow(0)
adds the new row at the top; each configured column's cell class is
instantiated on getattr(data, header); when data_key is configured the
registry binds the record's key to the new row (retaining, per the
embedding note above, exactly the update-flagged cells). -/
def insert_new_row {Data : Type} (cfg : MonitorConfig Data)
    (st : MonitorState) (data : Data) : MonitorState :=
  let newCells := cfg.headers.map (fun h => (h.name, h.make data))
  let row : Row := { id := st.nextId, cells := newCells, hidden := false }
  let registry :=
    match cfg.data_key with
    | none => st.registry
    | some keyFn => (keyFn data, st.nextId) :: st.registry
  { rows := row :: st.rows, registry := registry, nextId := st.nextId + 1 }

/-- Effect of update_old_row on one row: every cell whose field is
live-updated (i.e. was retained in the registry dict at insert time) is
re-rendered with set_content on the new record; every other cell is left
untouched. -/
def updateRowCells {Data : Type} (cfg : MonitorConfig Data)
    (data : Data) (r : Row) : Row :=
  { r with cells := r.cells.map (fun p =>
      match headerFor cfg p.1 with
      | some h => if h.update then (p.1, h.set p.2 data) else p
      | none => p) }

/-- BaseMonitor.update_old_row (widget.py lines 340-349): looks up the
registry entry for the record's key and mutates that row's retained
cells in place.  When data_key is empty or the key is unbound the
Python code would raise; process_event never reaches this function in
those situations, and the embedding returns the state unchanged there. -/
def update_old_row {Data : Type} (cfg : MonitorConfig Data)
    (st : MonitorState) (data : Data) : MonitorState :=
  match cfg.data_key with
  | none => st
  | some keyFn =>
    match regFind st.registry (keyFn data) with
    | none => st
    | some rid =>
      { st with rows := st.rows.map (fun r =>
          if r.id = rid then updateRowCells cfg data r else r) }

/-- BaseMonitor.process_event (widget.py lines 294-317): with no
configured data_key every event inserts; otherwise the record's key is
looked up in self.cells and decides update versus insert. -/
def process_event {Data : Type} (cfg : MonitorConfig Data)
    (st : MonitorState) (data : Data) : MonitorState :=
  match cfg.data_key with
  | none => insert_new_row cfg st data
  | some keyFn =>
    if (regFind st.registry (keyFn data)).isSome then
      update_old_row cfg st data
    else
      insert_new_row cfg st data

/-- Rendered texts of one exported CSV data line: for each column index,
str(item.text()) when the item exists and "" when item(row, column) is
None (widget.py lines 378-383). -/
def csvLine {Data : Type} (cfg : MonitorConfig Data) (r : Row) : List String :=
  (List.range cfg.headers.length).map (fun c =>
    match r.cells.get? c with
    | some p => p.2.text
    | none => "")

/-- BaseMonitor.save_csv (widget.py lines 357-384), as the list of rows
written to the chosen file: first the column display labels, then one
line per non-hidden row in current display order, hidden rows skipped
by the `continue` at line 375.  The file dialog and file handle are not
modelled; only the emitted rows are. -/
def save_csv {Data : Type} (cfg : MonitorConfig Data)
    (st : MonitorState) : List (List String) :=
  (cfg.headers.map (fun h => h.display)) ::
    ((st.rows.filter (fun r => !r.hidden)).map (fun r => csvLine cfg r))

/-! ## OrderData and the order monitors (widget.py lines 473-513, 1053-1071) -/

/-- Order record consumed by OrderMonitor.  Modelled from the spec: the
OrderData class lives in vnpy/trader/object.py, outside the provided
file set; the spec describes events as tagged payloads whose fields are
read per configured column.  Fields that cells only consume through
str() are carried as their rendered strings, enum fields as their
display labels (always truthy members), and is_active()'s result as the
boolean `active`. -/
structure OrderData where
  orderid : String
  reference : String
  symbol : String
  exchange : String
  ordType : String
  direction : Direction
  offset : String
  price : String
  volume : String
  traded : String
  status : String
  datetime : Option LocalTime
  gateway_name : String
  vt_orderid : String
  active : Bool

/-- Column configuration of OrderMonitor (widget.py lines 482-496):
data_key = "vt_orderid", and the headers dict in order.  EnumCell
columns reduce to BaseCell on the member's label because every enum
member is truthy. -/
def orderCfg : MonitorConfig OrderData :=
  { data_key := some (fun d => d.vt_orderid)
    headers :=
      [ { name := "orderid", display := "委托号", update := false,
          make := fun d => baseCell_new d.orderid,
          set := fun c d => baseCell_set_content c d.orderid }
      , { name := "reference", display := "来源", update := false,
          make := fun d => baseCell_new d.reference,
          set := fun c d => baseCell_set_content c d.reference }
      , { name := "symbol", display := "代码", update := false,
          make := fun d => baseCell_new d.symbol,
          set := fun c d => baseCell_set_content c d.symbol }
      , { name := "exchange", display := "交易所", update := false,
          make := fun d => baseCell_set_content Cell.init d.exchange,
          set := fun c d => baseCell_set_content c d.exchange }
      , { name := "type", display := "类型", update := false,
          make := fun d => baseCell_set_content Cell.init d.ordType,
          set := fun c d => baseCell_set_content c d.ordType }
      , { name := "direction", display := "方向", update := false,
          make := fun d => directionCell_set_content Cell.init (some d.direction),
          set := fun c d => directionCell_set_content c (some d.direction) }
      , { name := "offset", display := "开平", update := false,
          make := fun d => baseCell_set_content Cell.init d.offset,
          set := fun c d => baseCell_set_content c d.offset }
      , { name := "price", display := "价格", update := false,
          make := fun d => baseCell_new d.price,
          set := fun c d => baseCell_set_content c d.price }
      , { name := "volume", display := "总数量", update := true,
          make := fun d => baseCell_new d.volume,
          set := fun c d => baseCell_set_content c d.volume }
      , { name := "traded", display := "已成交", update := true,
          make := fun d => baseCell_new d.traded,
          set := fun c d => baseCell_set_content c d.traded }
      , { name := "status", display := "状态", update := true,
          make := fun d => baseCell_set_content Cell.init d.status,
          set := fun c d => baseCell_set_content c d.status }
      , { name := "datetime", display := "时间", update := true,
          make := fun d => timeCell_set_content Cell.init d.datetime,
          set := fun c d => timeCell_set_content c d.datetime }
      , { name := "gateway_name", display := "接口", update := false,
          make := fun d => baseCell_new d.gateway_name,
          set := fun c d => baseCell_set_content c d.gateway_name }
      ] }

/-- ActiveOrderMonitor.process_event (widget.py lines 1058-1071): runs the
inherited BaseMonitor.process_event, then reads
self.cells[order.vt_orderid] and row_cells["volume"] — each a Python
dict access that raises KeyError when absent, embedded as an Option —
and shows the row when the order is active, hides it otherwise. -/
def activeOrder_process_event (st : MonitorState) (order : OrderData) :
    Option MonitorState :=
  let st1 := process_event orderCfg st order
  match regFind st1.registry order.vt_orderid with
  | none => none
  | some rid =>
    if isLiveHeader orderCfg "volume" then
      some { st1 with rows := st1.rows.map (fun r =>
        if r.id = rid then { r with hidden := !order.active } else r) }
    else
      none

/-! ## Python numeric text parsing

float() and int() applied to the entered texts.  The parsers below
follow CPython's grammar: surrounding Python whitespace is stripped,
one optional sign is taken, "inf"/"infinity"/"nan" are matched case
insensitively, PEP 515 underscores must sit directly between two
digits, and the number is digits with at most one decimal point and,
for float, an optional exponent part.  On ASCII text these functions
agree exactly with Python's acceptance (Python additionally maps
non-ASCII decimal digits and non-ASCII whitespace, which is not
modelled; theorems quantifying over parse failures therefore restrict
their inputs to the ASCII alphabet via asciiOnly). -/

/-- Result of a successful Python float(): a finite value (modelled as
the exact rational of the literal; IEEE rounding and overflow of
extreme literals are not modelled), a signed infinity, or a NaN. -/
inductive PyFloat where
  | finite (q : ℚ)
  | inf (neg : Bool)
  | nan
deriving DecidableEq, Repr

/-- Python float comparison `x > 0`; False for NaN. -/
def PyFloat.gtZero : PyFloat → Bool
  | .finite q => decide (0 < q)
  | .inf neg => !neg
  | .nan => false

/-- Python float comparison `x <= 0`; False for NaN. -/
def PyFloat.leZero : PyFloat → Bool
  | .finite q => decide (q ≤ 0)
  | .inf neg => neg
  | .nan => false

/-- ASCII characters Python's number parsing strips as surrounding
whitespace (Py_UNICODE_ISSPACE restricted to ASCII: 0x09-0x0D,
0x1C-0x1F and the space). -/
def isPySpace (c : Char) : Bool :=
  (0x09 ≤ c.toNat && c.toNat ≤ 0x0d) ||
    (0x1c ≤ c.toNat && c.toNat ≤ 0x1f) || c.toNat == 0x20

/-- Strip Python whitespace from both ends. -/
def pyStrip (l : List Char) : List Char :=
  ((l.dropWhile isPySpace).reverse.dropWhile isPySpace).reverse

/-- True when every character of the string is ASCII: the alphabet on
which pyFloat and pyInt agree exactly with Python float() and int(). -/
def asciiOnly (s : String) : Bool :=
  s.data.all (fun c => c.toNat < 128)

/-- PEP 515 validity scan: every underscore must be directly preceded
and followed by a digit.  The first argument is the previous character,
if any. -/
def underscoresOkAux : Option Char → List Char → Bool
  | _, [] => true
  | prev, c :: rest =>
    if c = '_' then
      (match prev with
        | some p => p.isDigit
        | none => false) &&
      (match rest with
        | n :: _ => n.isDigit
        | [] => false) &&
      underscoresOkAux (some c) rest
    else
      underscoresOkAux (some c) rest

/-- PEP 515 validity of all underscores in a literal body. -/
def underscoresOk (l : List Char) : Bool :=
  underscoresOkAux none l

/-- Split at the first character satisfying p, when one is present. -/
def splitFirst (p : Char → Bool) : List Char → List Char × Option (List Char)
  | [] => ([], none)
  | c :: rest =>
    if p c then ([], some rest)
    else
      let ab := splitFirst p rest
      (c :: ab.1, ab.2)

/-- Leading sign of a numeric literal: (is-negative, remaining text). -/
def parseSign : List Char → Bool × List Char
  | '+' :: r => (false, r)
  | '-' :: r => (true, r)
  | r => (false, r)

/-- Value of a digit string, most significant first. -/
def digitsVal (l : List Char) : Nat :=
  l.foldl (fun n c => n * 10 + (c.toNat - 48)) 0

/-- Mantissa of a float literal after underscore removal: digits with
at most one decimal point and at least one digit overall. -/
def parseMantissa (l : List Char) : Option ℚ :=
  match l.splitOn '.' with
  | [ip] =>
    if ip ≠ [] ∧ ip.all Char.isDigit then some (digitsVal ip : ℚ) else none
  | [ip, fp] =>
    if ip ++ fp ≠ [] ∧ ip.all Char.isDigit ∧ fp.all Char.isDigit then
      some ((digitsVal (ip ++ fp) : ℚ) / (10 : ℚ) ^ fp.length)
    else none
  | _ => none

/-- Exponent of a float literal, after the e: an optional sign then at
least one digit. -/
def parseExp (l : List Char) : Option ℤ :=
  let sd := parseSign l
  if sd.2 ≠ [] ∧ sd.2.all Char.isDigit then
    some (if sd.1 then -(digitsVal sd.2 : ℤ) else (digitsVal sd.2 : ℤ))
  else none

/-- Apply a leading minus sign to a finite value. -/
def signApply (neg : Bool) (q : ℚ) : ℚ :=
  if neg then -q else q

/-- Python float(text); None models ValueError.  Exact on ASCII text. -/
def pyFloat (s : String) : Option PyFloat :=
  let sb := parseSign (pyStrip s.data)
  let neg := sb.1
  let body := sb.2
  let lower := body.map Char.toLower
  if lower = "inf".data ∨ lower = "infinity".data then some (.inf neg)
  else if lower = "nan".data then some .nan
  else if underscoresOk body then
    let me := splitFirst (fun c => c = 'e' || c = 'E')
      (body.filter (fun c => c ≠ '_'))
    match parseMantissa me.1 with
    | none => none
    | some m =>
      match me.2 with
      | none => some (.finite (signApply neg m))
      | some ec =>
        match parseExp ec with
        | none => none
        | some e => some (.finite (signApply neg (m * (10 : ℚ) ^ e)))
  else none

/-- Python int(text) in the default base 10; None models ValueError.
Exact on ASCII text. -/
def pyInt (s : String) : Option ℤ :=
  let sb := parseSign (pyStrip s.data)
  if underscoresOk sb.2 then
    let cleaned := sb.2.filter (fun c => c ≠ '_')
    if cleaned ≠ [] ∧ cleaned.all Char.isDigit then
      some (if sb.1 then -(digitsVal cleaned : ℤ) else (digitsVal cleaned : ℤ))
    else none
  else none

/-- Python `text or default`: the empty string is falsy. -/
def pyOr (s d : String) : String :=
  if s = "" then d else s

/-! ## TradingWidget.send_order (widget.py lines 977-1011) -/

/-- Observable outcome of one invocation of TradingWidget.send_order:
either a blocking QMessageBox.critical followed by return (no order), an
exception escaping the handler (no message shown, no order), or a call
into main_engine.send_order with the parsed request fields. -/
inductive SendOutcome where
  | rejected (msg : String)
  | raised
  | sent (symbol : String) (volume price : PyFloat)
deriving DecidableEq, Repr

/-- True exactly on the sent outcome. -/
def SendOutcome.isSent : SendOutcome → Bool
  | .sent _ _ _ => true
  | _ => false

/-- TradingWidget.send_order: empty symbol and empty volume text are each
rejected with a critical message box; then volume = float(volume_text)
and, when the price text is nonempty, price = float(price_text) run with
no surrounding try, so a parse failure raises an uncaught ValueError;
otherwise the order request is sent.  The combo-box enum fields cannot
fail and are omitted. -/
def tw_send_order (symbol_text volume_text price_text : String) :
    SendOutcome :=
  if symbol_text = "" then .rejected "请输入合约代码"
  else if volume_text = "" then .rejected "请输入委托数量"
  else
    match pyFloat volume_text with
    | none => .raised
    | some volume =>
      if price_text = "" then .sent symbol_text volume (.finite 0)
      else
        match pyFloat price_text with
        | none => .raised
        | some price => .sent symbol_text volume price

/-! ## TradingAssistantWidget (assistant_widget.py lines 312-413) -/

/-- Texts of one row of the assistant widget's inputs. -/
structure RowInputs where
  symbol_text : String
  price_text : String
  qty_text : String

/-- Observable actions of the assistant widget's handlers: a warning
message box for a caught ValueError, the send_order parameter-check
warning, the no-gateway warning, or a call into main_engine.send_order. -/
inductive AssistAction where
  | warnParse (msg : String)
  | warnInvalid
  | warnNoGateway
  | orderSent (symbol : String) (price : PyFloat) (qty : ℤ) (dir : Direction)
deriving DecidableEq, Repr

/-- True when the action list contains a main_engine.send_order call. -/
def anyOrderSent (acts : List AssistAction) : Bool :=
  acts.any fun a =>
    match a with
    | .orderSent _ _ _ _ => true
    | _ => false

/-- TradingAssistantWidget.send_order (assistant_widget.py lines
312-345): warns on empty symbol or non-positive price/quantity, warns
when no gateway is configured, and otherwise submits through the first
gateway (the success info box is not a separate observable here). -/
def assistant_send_order (symbol : String) (price : PyFloat) (qty : ℤ)
    (dir : Direction) (gateways : List String) : List AssistAction :=
  if symbol = "" ∨ price.leZero = true ∨ qty ≤ 0 then [.warnInvalid]
  else
    match gateways with
    | [] => [.warnNoGateway]
    | _ :: _ => [.orderSent symbol price qty dir]

/-- One row of on_buy_order_clicked / on_sell_order_clicked
(assistant_widget.py lines 363-372 and analogues): strip the symbol,
parse price with float(text or "0") and quantity with int(text or "0")
inside a try; on ValueError show the row's warning message; on success
submit only when symbol is nonempty and price and quantity are positive.
String.trim stands for Python str.strip() (both remove surrounding
whitespace; all concrete symbols here have none). -/
def processRow (row : RowInputs) (dir : Direction) (msg : String)
    (gateways : List String) : List AssistAction :=
  let symbol := row.symbol_text.trim
  match pyFloat (pyOr row.price_text "0"), pyInt (pyOr row.qty_text "0") with
  | some price, some qty =>
    if symbol ≠ "" ∧ price.gtZero = true ∧ 0 < qty then
      assistant_send_order symbol price qty dir gateways
    else []
  | _, _ => [.warnParse msg]

/-- TradingAssistantWidget.on_buy_order_clicked (assistant_widget.py
lines 355-383): processes row 1 when the spin box is at least 1 and
row 2 when at least 2, each with Direction.LONG. -/
def on_buy_order_clicked (spin : ℤ) (row1 row2 : RowInputs)
    (gateways : List String) : List AssistAction :=
  (if spin ≥ 1 then processRow row1 .long "第一行买入参数格式错误" gateways else []) ++
  (if spin ≥ 2 then processRow row2 .long "第二行买入参数格式错误" gateways else [])

/-- TradingAssistantWidget.on_sell_order_clicked (assistant_widget.py
lines 385-413): the same structure with Direction.SHORT. -/
def on_sell_order_clicked (spin : ℤ) (row1 row2 : RowInputs)
    (gateways : List String) : List AssistAction :=
  (if spin ≥ 1 then processRow row1 .short "第一行卖出参数格式错误" gateways else []) ++
  (if spin ≥ 2 then processRow row2 .short "第二行卖出参数格式错误" gateways else [])

/-! ## LogMonitor (widget.py lines 434-447) -/

/-- Log record consumed by LogMonitor.  Modelled from the spec: LogData
lives in vnpy/trader/object.py outside the provided file set; the spec
calls these keyless append-only log lines with the three displayed
fields below. -/
structure LogData where
  time : Option LocalTime
  msg : String
  gateway_name : String

/-- Column configuration of LogMonitor (widget.py lines 439-447):
data_key = "" (keyless), sorting disabled, three static columns.
MsgCell only changes text alignment over BaseCell. -/
def logCfg : MonitorConfig LogData :=
  { data_key := none
    headers :=
      [ { name := "time", display := "时间", update := false,
          make := fun d => timeCell_set_content Cell.init d.time,
          set := fun c d => timeCell_set_content c d.time }
      , { name := "msg", display := "信息", update := false,
          make := fun d => baseCell_new d.msg,
          set := fun c d => baseCell_set_content c d.msg }
      , { name := "gateway_name", display := "接口", update := false,
          make := fun d => baseCell_new d.gateway_name,
          set := fun c d => baseCell_set_content c d.gateway_name }
      ] }

/-! ## Concrete demonstration values used by witnesses -/

/-- Sample log event. -/
def logA : LogData := { time := none, msg := "engine started", gateway_name := "" }

/-- Second sample log event. -/
def logB : LogData := { time := none, msg := "gateway connected", gateway_name := "CTP" }

/-- Sample order event (active). -/
def orderA : OrderData :=
  { orderid := "1", reference := "", symbol := "600000", exchange := "SSE",
    ordType := "限价", direction := .long, offset := "开", price := "10.0",
    volume := "100.0", traded := "0.0", status := "未成交", datetime := none,
    gateway_name := "CTP", vt_orderid := "CTP.1", active := true }

/-- The same order after a partial fill (same key, live fields changed). -/
def orderA2 : OrderData :=
  { orderA with traded := "50.0", status := "部分成交" }

/-- The same order after it is fully filled (no longer active). -/
def orderA3 : OrderData :=
  { orderA with traded := "100.0", status := "全部成交", active := false }

/-- Hidden demonstration row for the CSV export claim. -/
def csvRowHidden : Row :=
  { id := 0
    cells := [("time", { text := "10:00:00.000", color := none }),
              ("msg", { text := "hello", color := none }),
              ("gateway_name", { text := "CTP", color := none })]
    hidden := true }

/-- Visible demonstration row for the CSV export claim. -/
def csvRowVisible : Row :=
  { id := 1
    cells := [("time", { text := "10:00:01.000", color := none }),
              ("msg", { text := "world", color := none }),
              ("gateway_name", { text := "CTP", color := none })]
    hidden := false }

/-- Monitor state with one hidden and one visible row. -/
def csvDemoState : MonitorState :=
  { rows := [csvRowHidden, csvRowVisible], registry := [], nextId := 2 }

/-! ## Theorems -/

/-- Claim C2: with no configured row key, every processed event inserts a
new row at the top of the table (no registry bookkeeping, never an
update), so after N events the row count has grown by exactly N. -/
theorem keyless_append_rowcount {Data : Type} (cfg : MonitorConfig Data)
    (hkey : cfg.data_key = none) (events : List Data) (st : MonitorState)
    (d : Data) :
    ((events.foldl (process_event cfg) st).rows.length
      = st.rows.length + events.length) ∧
    ((events.foldl (process_event cfg) st).registry = st.registry) ∧
    (process_event cfg st d).rows =
      { id := st.nextId,
        cells := cfg.headers.map (fun h => (h.name, h.make d)),
        hidden := false } :: st.rows := by
  refine ⟨?_, ?_, by simp [process_event, hkey, insert_new_row]⟩
  · induction events generalizing st with
    | nil => simp
    | cons e rest ih =>
      rw [List.foldl_cons]
      have hstep : (process_event cfg st e).rows.length = st.rows.length + 1 := by
        simp [process_event, hkey, insert_new_row]
      rw [ih (process_event cfg st e), hstep]
      simp
      omega
  · induction events generalizing st with
    | nil => simp
    | cons e rest ih =>
      rw [List.foldl_cons]
      have hstep : (process_event cfg st e).registry = st.registry := by
        simp [process_event, hkey, insert_new_row]
      rw [ih (process_event cfg st e), hstep]

/-- Claim C2, witness: two log events processed by the keyless LogMonitor
configuration from the fresh state leave two rows, an untouched
registry, and each single step places the new row at index 0. -/
theorem keyless_append_rowcount_witness :
    (([logA, logB].foldl (process_event logCfg) MonitorState.init).rows.length
      = MonitorState.init.rows.length + [logA, logB].length) ∧
    (([logA, logB].foldl (process_event logCfg) MonitorState.init).registry
      = MonitorState.init.registry) ∧
    (process_event logCfg MonitorState.init logA).rows =
      { id := MonitorState.init.nextId,
        cells := logCfg.headers.map (fun h => (h.name, h.make logA)),
        hidden := false } :: MonitorState.init.rows :=
  keyless_append_rowcount logCfg rfl [logA, logB] MonitorState.init logA

/-- Decidable statement that the table holds exactly one row in total
and the registry binds key k to that row's identity: the shape reached
after any run of same-key events on a fresh keyed monitor. -/
def singleRowForKey (st : MonitorState) (k : String) : Bool :=
  st.rows.length == 1 &&
    match regFind st.registry k with
    | some rid => st.rows.all (fun r => r.id == rid)
    | none => false

/-- Registry lookup after binding the same key at the front. -/
theorem regFind_cons_self (reg : List (String × Nat)) (k : String) (v : Nat) :
    regFind ((k, v) :: reg) k = some v := by
  simp [regFind]

/-- Processing an event whose key is already registered goes through the
UPDATE path: the registry is untouched and the rows are rewritten in
place by updateRowCells on the registered row only. -/
theorem process_event_registered {Data : Type} (cfg : MonitorConfig Data)
    (keyFn : Data → String) (hkey : cfg.data_key = some keyFn)
    (st : MonitorState) (d : Data) (rid : Nat)
    (hfind : regFind st.registry (keyFn d) = some rid) :
    process_event cfg st d =
      { st with rows := st.rows.map (fun r =>
          if r.id = rid then updateRowCells cfg d r else r) } := by
  simp [process_event, update_old_row, hkey, hfind]

/-- Processing an event whose key is not registered goes through the
INSERT path. -/
theorem process_event_unregistered {Data : Type} (cfg : MonitorConfig Data)
    (keyFn : Data → String) (hkey : cfg.data_key = some keyFn)
    (st : MonitorState) (d : Data)
    (hfind : regFind st.registry (keyFn d) = none) :
    process_event cfg st d = insert_new_row cfg st d := by
  simp [process_event, hkey, hfind]

/-- The single-row-for-key shape is preserved by any further event
carrying the same key. -/
theorem singleRow_preserved {Data : Type} (cfg : MonitorConfig Data)
    (keyFn : Data → String) (hkey : cfg.data_key = some keyFn)
    (k : String) (st : MonitorState) (d : Data) (hd : keyFn d = k)
    (hst : singleRowForKey st k = true) :
    singleRowForKey (process_event cfg st d) k = true := by
  simp only [singleRowForKey, Bool.and_eq_true, beq_iff_eq] at hst
  obtain ⟨hlen, hreg⟩ := hst
  cases hfind : regFind st.registry k with
  | none => rw [hfind] at hreg; exact absurd hreg (by simp)
  | some rid =>
    rw [hfind] at hreg
    rw [process_event_registered cfg keyFn hkey st d rid (by rw [hd, hfind])]
    simp only [singleRowForKey, Bool.and_eq_true, beq_iff_eq]
    refine ⟨by simpa using hlen, ?_⟩
    rw [show ({ st with rows := st.rows.map (fun r =>
        if r.id = rid then updateRowCells cfg d r else r) } :
        MonitorState).registry = st.registry from rfl, hfind]
    simp only [List.all_eq_true, beq_iff_eq] at hreg ⊢
    intro r hr
    obtain ⟨r0, hr0, hmap⟩ := List.mem_map.mp hr
    have hid : r0.id = rid := hreg r0 hr0
    rw [← hmap]
    simp [hid, updateRowCells]

/-- Claim C1: on a monitor configured with a row key, processing any
nonempty sequence of events that all carry the same key from the fresh
state leaves exactly one row in the table: the first event inserts the
row and registers its key, every later event rewrites that row's cells
through the registry and never adds a row. -/
theorem upsert_single_row_per_key {Data : Type} (cfg : MonitorConfig Data)
    (keyFn : Data → String) (hkey : cfg.data_key = some keyFn)
    (k : String) (events : List Data) (hne : events ≠ [])
    (hall : ∀ d ∈ events, keyFn d = k) :
    singleRowForKey (events.foldl (process_event cfg) MonitorState.init) k
      = true := by
  cases events with
  | nil => exact absurd rfl hne
  | cons e rest =>
    rw [List.foldl_cons]
    have hfirst : singleRowForKey (process_event cfg MonitorState.init e) k
        = true := by
      rw [process_event_unregistered cfg keyFn hkey MonitorState.init e rfl]
      have hke : keyFn e = k := hall e (List.mem_cons_self e rest)
      simp [singleRowForKey, insert_new_row, MonitorState.init, hkey, hke,
        regFind_cons_self]
    have hrest : ∀ d ∈ rest, keyFn d = k := fun d hd =>
      hall d (List.mem_cons_of_mem e hd)
    have hfold : ∀ (l : List Data) (s : MonitorState),
        (∀ d ∈ l, keyFn d = k) → singleRowForKey s k = true →
        singleRowForKey (l.foldl (process_event cfg) s) k = true := by
      intro l
      induction l with
      | nil => intro s _ hs; simpa using hs
      | cons x xs ih =>
        intro s hall2 hs
        rw [List.foldl_cons]
        exact ih (process_event cfg s x)
          (fun d hd => hall2 d (List.mem_cons_of_mem x hd))
          (singleRow_preserved cfg keyFn hkey k s x
            (hall2 x (List.mem_cons_self x xs)) hs)
    exact hfold rest (process_event cfg MonitorState.init e) hrest hfirst

/-- Claim C1, witness: three events for the same vt_orderid (submission,
partial fill, full fill) processed by the OrderMonitor configuration
from the fresh state leave exactly one row, bound to key "CTP.1". -/
theorem upsert_single_row_per_key_witness :
    singleRowForKey
      ([orderA, orderA2, orderA3].foldl (process_event orderCfg)
        MonitorState.init) "CTP.1" = true :=
  upsert_single_row_per_key orderCfg (fun d => d.vt_orderid) rfl "CTP.1"
    [orderA, orderA2, orderA3] (by simp)
    (by
      intro d hd
      simp only [List.mem_cons, List.not_mem_nil, or_false] at hd
      rcases hd with rfl | rfl | rfl <;> rfl)

/-- Claim C6: CSV export emits first the column display labels, then, in
current display order, one line of rendered cell text per non-hidden
row, skipping hidden rows entirely; concretely, exporting a table with
one hidden and one visible row yields the header line plus exactly one
data line. -/
theorem save_csv_visible_rows :
    (∀ (Data : Type) (cfg : MonitorConfig Data) (st : MonitorState),
      (save_csv cfg st).length
        = 1 + (st.rows.filter (fun r => !r.hidden)).length ∧
      (save_csv cfg st).head? = some (cfg.headers.map (fun h => h.display)) ∧
      (save_csv cfg st).tail
        = (st.rows.filter (fun r => !r.hidden)).map (fun r => csvLine cfg r)) ∧
    save_csv logCfg csvDemoState
      = [["时间", "信息", "接口"], ["10:00:01.000", "world", "CTP"]] := by
  refine ⟨fun Data cfg st => ⟨?_, ?_, ?_⟩, ?_⟩
  · simp [save_csv]
    omega
  · simp [save_csv]
  · simp [save_csv]
  · rfl

/-- Claim C3, counterexample: the claim says TimeCell renders
HH:MM:SS.mmm with the millisecond component always 3 digits and
zero-padded, so every rendered text would have 12 characters.  For a
local time with 50000 microseconds the code computes millisecond = 50
and renders "12:00:00.50" — 11 characters, the millisecond part "50"
unpadded — refuting the claim at this input. -/
theorem timeCell_padding_cex :
    (timeCell_set_content Cell.init (some ⟨12, 0, 0, 50000⟩)).text
      = "12:00:00.50" ∧
    ¬ (timeCell_set_content Cell.init (some ⟨12, 0, 0, 50000⟩)).text.length
      = 12 := by
  constructor
  · rfl
  · decide

/-- Claim C3, amended: for every non-None datetime input, TimeCell
renders the local time as HH:MM:SS followed by ".000" when the
truncated millisecond value is zero and otherwise by "." and the
millisecond value written in plain decimal without zero padding (1 to 3
digits); in particular a zero sub-second component renders a text
ending in ".000" and 250,000 microseconds renders a text ending in
".250". -/
theorem timeCell_format_amended :
    (∀ (c : Cell) (t : LocalTime),
      (timeCell_set_content c (some t)).text =
        if t.microsecond / 1000 = 0 then strftimeHMS t ++ ".000"
        else strftimeHMS t ++ "." ++ toString (t.microsecond / 1000)) ∧
    (timeCell_set_content Cell.init (some ⟨9, 30, 5, 0⟩)).text.takeRight 4
      = ".000" ∧
    (timeCell_set_content Cell.init (some ⟨9, 30, 5, 250000⟩)).text.takeRight 4
      = ".250" := by
  refine ⟨fun c t => ?_, by decide, by decide⟩
  by_cases hm : t.microsecond / 1000 = 0 <;>
    simp [timeCell_set_content, hm]

/-- Claim C4: PnlCell's text is the plain string conversion of the value
and its foreground is COLOR_SHORT exactly when that text starts with a
minus sign and COLOR_LONG exactly otherwise; concretely the rendered
string "-12.5" gets the short color and "3.0" the long color. -/
theorem pnlCell_color_by_sign :
    (∀ (c : Cell) (s : String),
      (pnlCell_set_content c s).text = s ∧
      ((pnlCell_set_content c s).color = some COLOR_SHORT ↔
        pyStartswith s "-" = true) ∧
      ((pnlCell_set_content c s).color = some COLOR_LONG ↔
        pyStartswith s "-" = false)) ∧
    pnlCell_set_content Cell.init "-12.5"
      = { text := "-12.5", color := some COLOR_SHORT } ∧
    pnlCell_set_content Cell.init "3.0"
      = { text := "3.0", color := some COLOR_LONG } := by
  refine ⟨fun c s => ?_, by decide, by decide⟩
  by_cases h : pyStartswith s "-" <;>
    simp [pnlCell_set_content, baseCell_set_content, h,
      COLOR_SHORT, COLOR_LONG]

/-- Claim C5: BaseCell sorting compares the two cells' rendered texts
with lexicographic string order; concretely a cell with text "100"
sorts strictly before a cell with text "20" although 100 is numerically
larger than 20. -/
theorem cell_sort_lexicographic :
    (∀ a b : Cell, baseCell_lt a b = true ↔ a.text < b.text) ∧
    baseCell_lt { text := "100", color := none } { text := "20", color := none }
      = true ∧
    (20 : ℕ) < 100 := by
  refine ⟨fun a b => ?_, ?_, by decide⟩
  · simp [baseCell_lt]
  · simp only [baseCell_lt, decide_eq_true_iff]
    rw [String.lt_iff_toList_lt]
    decide

/-- Claim C7, counterexample: the claim says every direction value that
does not denote long/buy — including a net direction — is colored with
the short color; the code colors Direction.NET with COLOR_LONG, since
its test is "content is Direction.SHORT". -/
theorem direction_net_color_cex :
    directionCell_set_content Cell.init (some Direction.net)
      = { text := "净", color := some COLOR_LONG } ∧
    COLOR_LONG ≠ COLOR_SHORT := by
  constructor
  · rfl
  · decide

/-- Claim C7, amended: DirectionCell's text is the enum member's label
and its foreground is COLOR_SHORT exactly when the value is the
short/sell direction; every other direction value — long/buy and
net alike — is colored COLOR_LONG. -/
theorem direction_color_amended :
    ∀ (c : Cell) (d : Direction),
      (directionCell_set_content c (some d)).text = d.label ∧
      (directionCell_set_content c (some d)).color =
        some (if d = Direction.short then COLOR_SHORT else COLOR_LONG) := by
  intro c d
  cases d <;>
    simp [directionCell_set_content, enumCell_set_content,
      baseCell_set_content, Direction.label]

/-- Demonstration row for the update-path claim: a static symbol cell
and a live volume cell, registered under key "CTP.1". -/
def rowC8 : Row :=
  { id := 0
    cells := [("symbol", { text := "600000", color := none }),
              ("volume", { text := "50.0", color := none })]
    hidden := false }

/-- Monitor state holding rowC8 under key "CTP.1". -/
def stC8 : MonitorState :=
  { rows := [rowC8], registry := [("CTP.1", 0)], nextId := 1 }

/-- Claim C8: on the UPDATE path, only the registered row is rewritten,
and within a row only the cells whose field is configured with
"update": True are re-rendered via set_content with the new record;
every cell of a static field keeps exactly its previous state, because
only live-updated cells were retained in the registry entry at insert
time. -/
theorem update_touches_only_live_cells {Data : Type} (cfg : MonitorConfig Data)
    (st : MonitorState) (d : Data) (keyFn : Data → String) (rid : Nat)
    (hkey : cfg.data_key = some keyFn)
    (hfind : regFind st.registry (keyFn d) = some rid)
    (r : Row) (j : Nat) (nm : String) (c : Cell)
    (hcell : r.cells.get? j = some (nm, c)) :
    ((update_old_row cfg st d).rows =
      st.rows.map (fun x => if x.id = rid then updateRowCells cfg d x else x)) ∧
    (isLiveHeader cfg nm = false →
      (updateRowCells cfg d r).cells.get? j = some (nm, c)) ∧
    (∀ h : HeaderSpec Data, headerFor cfg nm = some h → h.update = true →
      (updateRowCells cfg d r).cells.get? j = some (nm, h.set c d)) := by
  rw [List.get?_eq_getElem?] at hcell
  refine ⟨by simp [update_old_row, hkey, hfind], ?_, ?_⟩
  · intro hstatic
    cases hh : headerFor cfg nm with
    | none =>
      simp [updateRowCells, List.get?_eq_getElem?, List.getElem?_map,
        hcell, hh]
    | some h =>
      have hup : h.update = false := by
        simpa [isLiveHeader, hh] using hstatic
      simp [updateRowCells, List.get?_eq_getElem?, List.getElem?_map,
        hcell, hh, hup]
  · intro h hh hup
    simp [updateRowCells, List.get?_eq_getElem?, List.getElem?_map,
      hcell, hh, hup]

/-- Claim C8, witness: updating rowC8 with the partially filled order
rewrites only the registered row; the static symbol cell is unchanged
while the live volume cell is re-rendered from "50.0" to "100.0". -/
theorem update_touches_only_live_cells_witness :
    ((update_old_row orderCfg stC8 orderA).rows =
      stC8.rows.map (fun x =>
        if x.id = 0 then updateRowCells orderCfg orderA x else x)) ∧
    (updateRowCells orderCfg orderA rowC8).cells.get? 0
      = some ("symbol", { text := "600000", color := none }) ∧
    (updateRowCells orderCfg orderA rowC8).cells.get? 1
      = some ("volume", { text := "100.0", color := none }) :=
  ⟨(update_touches_only_live_cells orderCfg stC8 orderA
      (fun d => d.vt_orderid) 0 rfl rfl rowC8 0 "symbol"
      { text := "600000", color := none } rfl).1,
   (update_touches_only_live_cells orderCfg stC8 orderA
      (fun d => d.vt_orderid) 0 rfl rfl rowC8 0 "symbol"
      { text := "600000", color := none } rfl).2.1 rfl,
   (update_touches_only_live_cells orderCfg stC8 orderA
      (fun d => d.vt_orderid) 0 rfl rfl rowC8 1 "volume"
      { text := "50.0", color := none } rfl).2.2
     { name := "volume", display := "总数量", update := true,
       make := fun d => baseCell_new d.volume,
       set := fun c d => baseCell_set_content c d.volume } rfl rfl⟩

/-! ## ActiveOrderMonitor theorems -/

/-- Well-formedness tying the registry to the table: every registered
row identity is carried by some row.  It holds for the fresh state and
is maintained by process_event. -/
def registryBound (st : MonitorState) : Prop :=
  ∀ k rid, regFind st.registry k = some rid → ∃ r ∈ st.rows, r.id = rid

/-- Decidable statement of claim C10's conclusion on the result of
ActiveOrderMonitor.process_event: the call completed without a KeyError
(the Option is some), the registry lookup for the order's vt_orderid
succeeds, the bound row is present, and every row bound to that
identity is shown when the order is active and hidden when it is not. -/
def rowVisibilityOk (ost : Option MonitorState) (order : OrderData) : Bool :=
  match ost with
  | none => false
  | some st2 =>
    match regFind st2.registry order.vt_orderid with
    | none => false
    | some rid =>
      st2.rows.any (fun r => r.id == rid) &&
        st2.rows.all (fun r => !(r.id == rid) || (r.hidden == !order.active))

/-- Marking rows by identity leaves every row bound to that identity
with exactly the requested hidden flag. -/
theorem hideShow_marks (rows : List Row) (rid : Nat) (b : Bool) :
    (rows.map (fun r => if r.id = rid then { r with hidden := b } else r)).all
      (fun r => !(r.id == rid) || (r.hidden == b)) = true := by
  simp only [List.all_eq_true]
  intro r2 hr2
  obtain ⟨r, hr, rfl⟩ := List.mem_map.mp hr2
  by_cases h : r.id = rid <;> simp [h]

/-- Marking rows by identity keeps a row with that identity in the
table whenever one was there. -/
theorem hideShow_keeps_row (rows : List Row) (rid : Nat) (b : Bool) (r : Row)
    (hr : r ∈ rows) (hid : r.id = rid) :
    (rows.map (fun r => if r.id = rid then { r with hidden := b } else r)).any
      (fun r => r.id == rid) = true := by
  simp only [List.any_eq_true]
  exact ⟨if r.id = rid then { r with hidden := b } else r,
    List.mem_map_of_mem _ hr, by simp [hid]⟩

/-- After BaseMonitor.process_event on the OrderMonitor configuration,
the registry always holds the order's vt_orderid — the insert path just
registered it and the update path required it — and, when the incoming
state was well formed, a row with the registered identity is present. -/
theorem process_event_key_registered (st : MonitorState) (order : OrderData) :
    ∃ rid,
      regFind (process_event orderCfg st order).registry order.vt_orderid
        = some rid ∧
      (registryBound st →
        ∃ r ∈ (process_event orderCfg st order).rows, r.id = rid) := by
  cases hfind : regFind st.registry order.vt_orderid with
  | none =>
    rw [process_event_unregistered orderCfg (fun d => d.vt_orderid) rfl
      st order hfind]
    refine ⟨st.nextId, ?_, ?_⟩
    · exact regFind_cons_self st.registry order.vt_orderid st.nextId
    · intro _
      exact ⟨_, List.mem_cons_self _ _, rfl⟩
  | some rid =>
    rw [process_event_registered orderCfg (fun d => d.vt_orderid) rfl
      st order rid hfind]
    refine ⟨rid, hfind, ?_⟩
    intro hb
    obtain ⟨r, hr, hid⟩ := hb order.vt_orderid rid hfind
    exact ⟨if r.id = rid then updateRowCells orderCfg order r else r,
      List.mem_map_of_mem _ hr, by simp [hid, updateRowCells]⟩

/-- Claim C10: for every order event processed by
ActiveOrderMonitor.process_event from a well-formed state, the call
completes (the registry lookup after the base-class update never
fails), the registry holds the order's vt_orderid, and the row bound to
it ends up shown when the order is active and hidden when it is not. -/
theorem active_order_row_visibility (st : MonitorState) (order : OrderData)
    (hb : registryBound st) :
    rowVisibilityOk (activeOrder_process_event st order) order = true := by
  obtain ⟨rid, hrid, hex⟩ := process_event_key_registered st order
  obtain ⟨r, hr, hid⟩ := hex hb
  have hlive : isLiveHeader orderCfg "volume" = true := rfl
  simp only [activeOrder_process_event, hrid, hlive, if_true]
  simp only [rowVisibilityOk, hrid, Bool.and_eq_true]
  exact ⟨hideShow_keeps_row _ rid (!order.active) r hr hid,
    hideShow_marks _ rid (!order.active)⟩

/-- Claim C10, witness: processing the fully filled (inactive) order on
the fresh ActiveOrderMonitor completes, registers key "CTP.1", and
hides its row. -/
theorem active_order_row_visibility_witness :
    rowVisibilityOk (activeOrder_process_event MonitorState.init orderA3)
      orderA3 = true :=
  active_order_row_visibility MonitorState.init orderA3 (by
    intro k rid h
    simp [MonitorState.init, regFind] at h)

/-! ## Order submission error handling theorems -/

/-- Assistant row inputs whose price text does not parse as a float. -/
def badPriceRow : RowInputs :=
  { symbol_text := "600000", price_text := "12x.5", qty_text := "5000" }

/-- Claim C9, counterexample: submitting from TradingWidget with symbol
"600000", volume text "abc" and empty price text hits
volume = float(volume_text) outside any try block: the ValueError
escapes uncaught — the raised outcome, not a blocking message box — so
the claim that every parse error at submission is caught and surfaced
fails at this input.  No order is sent either way. -/
theorem order_parse_uncaught_cex :
    pyFloat "abc" = none ∧
    tw_send_order "600000" "abc" "" = SendOutcome.raised ∧
    (tw_send_order "600000" "abc" "").isSent = false := by
  refine ⟨rfl, rfl, rfl⟩

/-- Claim C9, amended: in the trading assistant's buy/sell handlers a
parse error on the price or quantity text is caught (ValueError) and
surfaced as the row's blocking warning message, and no order is
submitted; in TradingWidget.send_order the error is not caught or
surfaced: with a non-empty symbol and non-empty volume text, a volume
text that fails to parse — or a volume that parses while a non-empty
price text fails to parse — raises an uncaught ValueError with no
user-facing message, and no order request is sent there either.  The
asciiOnly hypotheses restrict each universally quantified text to the
alphabet on which pyFloat and pyInt coincide exactly with Python's
float() and int(). -/
theorem parse_error_handling_amended :
    (∀ (row : RowInputs) (dir : Direction) (msg : String)
        (gateways : List String),
      asciiOnly row.price_text = true → asciiOnly row.qty_text = true →
      (pyFloat (pyOr row.price_text "0") = none ∨
        pyInt (pyOr row.qty_text "0") = none) →
      processRow row dir msg gateways = [AssistAction.warnParse msg] ∧
      anyOrderSent (processRow row dir msg gateways) = false) ∧
    (∀ s v p : String, asciiOnly v = true → s ≠ "" → v ≠ "" →
      pyFloat v = none →
      tw_send_order s v p = SendOutcome.raised ∧
      (tw_send_order s v p).isSent = false) ∧
    (∀ (s v p : String) (q : PyFloat),
      asciiOnly v = true → asciiOnly p = true → s ≠ "" → v ≠ "" →
      pyFloat v = some q → p ≠ "" → pyFloat p = none →
      tw_send_order s v p = SendOutcome.raised ∧
      (tw_send_order s v p).isSent = false) := by
  refine ⟨?_, ?_, ?_⟩
  · intro row dir msg gateways _ _ hbad
    have heq : processRow row dir msg gateways = [AssistAction.warnParse msg] := by
      rcases hbad with hp | hq
      · simp [processRow, hp]
      · cases hc : pyFloat (pyOr row.price_text "0") <;>
          simp [processRow, hc, hq]
    exact ⟨heq, by rw [heq]; rfl⟩
  · intro s v p _ hs hv hp
    have heq : tw_send_order s v p = SendOutcome.raised := by
      simp [tw_send_order, hs, hv, hp]
    exact ⟨heq, by rw [heq]; rfl⟩
  · intro s v p q _ _ hs hv hq hpne hpf
    have heq : tw_send_order s v p = SendOutcome.raised := by
      simp [tw_send_order, hs, hv, hq, hpne, hpf]
    exact ⟨heq, by rw [heq]; rfl⟩

/-- Claim C9 amended, witness: a malformed price text in the assistant's
first buy row yields exactly the row's warning and no order; the
TradingWidget volume text "abc" yields the uncaught outcome; and so
does a parsing volume "100" combined with the malformed price text
"abc". -/
theorem parse_error_handling_amended_witness :
    (processRow badPriceRow Direction.long "第一行买入参数格式错误" ["CTP"]
      = [AssistAction.warnParse "第一行买入参数格式错误"] ∧
     anyOrderSent (processRow badPriceRow Direction.long
        "第一行买入参数格式错误" ["CTP"]) = false) ∧
    (tw_send_order "600000" "abc" "1.0" = SendOutcome.raised ∧
     (tw_send_order "600000" "abc" "1.0").isSent = false) ∧
    (tw_send_order "600000" "100" "abc" = SendOutcome.raised ∧
     (tw_send_order "600000" "100" "abc").isSent = false) :=
  ⟨parse_error_handling_amended.1 badPriceRow
      Direction.long "第一行买入参数格式错误" ["CTP"]
      (by decide) (by decide) (Or.inl (by decide)),
   parse_error_handling_amended.2.1 "600000" "abc" "1.0"
      (by decide) (by decide) (by decide) (by decide),
   parse_error_handling_amended.2.2 "600000" "100" "abc"
      (PyFloat.finite 100) (by decide) (by decide) (by decide) (by decide)
      (by decide) (by decide) (by decide)⟩

end Vnpy
